import Mathlib

/-
Verification of the data-preparation and filtering pipeline of the HR
dashboard (src/app.py): field normalization (`prepare_df`), derived-field
computation, the basic filter block, and the KPI aggregators.

Modelling conventions:
* A pandas cell is a `RawCell`: a string, a number (modelled as `ℚ`; the
  claims under study concern nullness, defaulting and exact sums, not
  floating-point rounding), a date (Excel datetime cells), or an empty
  cell (NaN).
* Column presence is table-level (`RawPres` / `ColPres`), as in a
  DataFrame; a pandas column is "object dtype" iff it is empty or holds
  at least one string cell (`colIsObject`), which is how `.str` accessor
  availability is decided by pandas.
* `prepare_df` takes the clock date `today` as an explicit argument; in
  the source this value is read from the system clock
  (`pd.Timestamp(date.today())`) inside the function.
* `prepare_df` returns `Except`: `df["Sexo"].str.upper()` raises when the
  Sexo column is present but not object-typed, and this is the one raise
  path of the stage.
* String rendering of non-string cells under `astype(str)`, numeric cells
  in date columns, and datetime cells in currency columns are corners no
  claim depends on; they are given simple total denotations below.
-/

namespace HRDash

/-- A calendar date (pandas Timestamp at day granularity). -/
structure Date where
  year : Int
  month : Int
  day : Int
deriving DecidableEq

/-- Chronological order on dates, as pandas compares Timestamps. -/
def dateLe (a b : Date) : Bool :=
  decide (a.year < b.year ∨ (a.year = b.year ∧
    (a.month < b.month ∨ (a.month = b.month ∧ a.day ≤ b.day))))

/-- Day number of a civil date (days since 1970-01-01, standard
days-from-civil algorithm); models `(t1 - t2).days` differences. -/
def civilDays (d : Date) : Int :=
  let y : Int := if d.month ≤ 2 then d.year - 1 else d.year
  let era : Int := (if 0 ≤ y then y else y - 399).fdiv 400
  let yoe : Int := y - era * 400
  let mp : Int := (d.month + 9).emod 12
  let doy : Int := (153 * mp + 2).fdiv 5 + d.day - 1
  let doe : Int := yoe * 365 + yoe.fdiv 4 - yoe.fdiv 100 + doy
  era * 146097 + doe - 719468

/-- One spreadsheet cell as read by `pd.read_excel`. -/
inductive RawCell where
  | str (s : String)
  | num (q : ℚ)
  | date (d : Date)
  | empty
deriving DecidableEq

/-- Simple date rendering, used only for `astype(str)` on datetime cells. -/
def dateStr (d : Date) : String :=
  toString d.year ++ "-" ++ toString d.month ++ "-" ++ toString d.day

/-- Python `str(...)` of a cell inside an object-dtype column
(`df[c].astype(str)`); a NaN cell renders as "nan". -/
def rawToStr : RawCell → String
  | .str s => s
  | .num q => toString q.num ++ (if q.den = 1 then "" else "/" ++ toString q.den)
  | .date d => dateStr d
  | .empty => "nan"

/-- Digit-string value, `none` if empty or not all digits. -/
def digitsToNat (cs : List Char) : Option Nat :=
  match cs with
  | [] => none
  | _ => if cs.all Char.isDigit then
           some (cs.foldl (fun a c => a * 10 + (c.toNat - 48)) 0)
         else none

/-- Decimal-notation number parser, modelling `pd.to_numeric` on a string
(optional leading minus, digits, optional fractional part). -/
def parseDec (s : String) : Option ℚ :=
  let neg : Bool := s.startsWith "-"
  let body : String := if neg then s.drop 1 else s
  let q? : Option ℚ :=
    match body.splitOn "." with
    | [ip] => (digitsToNat ip.toList).map (fun n => (n : ℚ))
    | [ip, fp] =>
      match digitsToNat ip.toList, digitsToNat fp.toList with
      | some n, some f => some ((n : ℚ) + (f : ℚ) / ((10 : ℚ) ^ fp.length))
      | _, _ => none
    | _ => none
  q?.map (fun q => if neg then -q else q)

/-- Day-first date-string parser ("dd/mm/yyyy"), modelling
`pd.to_datetime(..., dayfirst=True)` on the formats the claims exercise. -/
def parseDayFirst (s : String) : Option Date :=
  match s.splitOn "/" with
  | [ds, ms, ys] =>
    match ds.trim.toNat?, ms.trim.toNat?, ys.trim.toNat? with
    | some d, some m, some y =>
      if 1 ≤ m ∧ m ≤ 12 ∧ 1 ≤ d ∧ d ≤ 31 then
        some { year := (y : Int), month := (m : Int), day := (d : Int) }
      else none
    | _, _, _ => none
  | _ => none

/-- `pd.to_datetime(cell, dayfirst=True, errors="coerce")`: datetime cells
pass through, strings are parsed, anything else coerces to NaT (`none`). -/
def parseDateCell : RawCell → Option Date
  | .date d => some d
  | .str s => parseDayFirst s.trim
  | _ => none

/-- `pd.to_numeric(cell, errors="coerce")`: numbers pass through, strings
are parsed (they have been stripped by the text-normalization loop when
the column is object-typed), anything else coerces to NaN (`none`). -/
def toNumericQ : RawCell → Option ℚ
  | .num q => some q
  | .str s => parseDec s.trim
  | _ => none

/-- Which columns the raw spreadsheet has. -/
structure RawPres where
  nome : Bool := false
  area : Bool := false
  nivel : Bool := false
  cargo : Bool := false
  sexo : Bool := false
  nascimento : Bool := false
  contratacao : Bool := false
  demissao : Bool := false
  salario : Bool := false
  impostos : Bool := false
  beneficios : Bool := false
  vt : Bool := false
  vr : Bool := false
  avaliacao : Bool := false
deriving DecidableEq

/-- One raw spreadsheet row (cell values of the recognized columns; the
value of an absent column is irrelevant and defaults to empty). -/
structure RawRow where
  nome : RawCell := .empty
  area : RawCell := .empty
  nivel : RawCell := .empty
  cargo : RawCell := .empty
  sexo : RawCell := .empty
  nascimento : RawCell := .empty
  contratacao : RawCell := .empty
  demissao : RawCell := .empty
  salario : RawCell := .empty
  impostos : RawCell := .empty
  beneficios : RawCell := .empty
  vt : RawCell := .empty
  vr : RawCell := .empty
  avaliacao : RawCell := .empty
deriving DecidableEq

/-- The raw table handed to `prepare_df`. -/
structure RawTable where
  pres : RawPres := {}
  rows : List RawRow := []
deriving DecidableEq

/-- A column is object dtype iff it is empty or holds a string cell; the
`.str` accessor is available exactly on such columns. -/
def colIsObject (get : RawRow → RawCell) (rows : List RawRow) : Bool :=
  rows.isEmpty || rows.any (fun rr => match get rr with | .str _ => true | _ => false)

/-- Column presence of a normalized/derived table. Only columns whose
presence is ever tested downstream carry a flag. -/
structure ColPres where
  nome : Bool := false
  area : Bool := false
  nivel : Bool := false
  cargo : Bool := false
  sexo : Bool := false
  nascimento : Bool := false
  contratacao : Bool := false
  demissao : Bool := false
  salarioBase : Bool := false
  avaliacao : Bool := false
  idade : Bool := false
  tempoCasa : Bool := false
  status : Bool := false
  custoTotal : Bool := false
deriving DecidableEq

/-- One row of the normalized and derived table. -/
structure Row where
  nome : Option String := none
  area : Option String := none
  nivel : Option String := none
  cargo : Option String := none
  sexo : Option String := none
  nascimento : Option Date := none
  contratacao : Option Date := none
  demissao : Option Date := none
  salarioBase : ℚ := 0
  impostos : ℚ := 0
  beneficios : ℚ := 0
  vt : ℚ := 0
  vr : ℚ := 0
  avaliacao : Option ℚ := none
  idade : Option Int := none
  tempoCasa : Option Int := none
  status : Option String := none
  custoTotal : ℚ := 0
deriving DecidableEq

/-- A normalized/derived table (or any filtered view of one). -/
structure DataTable where
  pres : ColPres := {}
  rows : List Row := []
deriving DecidableEq

/-- The Sexo value map applied after upper-casing:
`.replace(\x7b"MASCULINO": "M", "FEMININO": "F"\x7d)`. -/
def sexMap (s : String) : String :=
  if s = "MASCULINO" then "M" else if s = "FEMININO" then "F" else s

/-- Text normalization of one cell: on an object-dtype column every value
becomes its stripped string form; other columns are untouched at this
stage (their values are not Python strings, rendered here as `none`). -/
def normText (isObj : Bool) (c : RawCell) : Option String :=
  if isObj then some ((rawToStr c).trim) else none

/-- Derived tenure in months:
`(today.year - hire.year) * 12 + (today.month - hire.month)` clipped at 0. -/
def tenureMonths (today h : Date) : Int :=
  max 0 ((today.year - h.year) * 12 + (today.month - h.month))

/-- Derived age in years: `(today - birth).days // 365` clipped at 0. -/
def ageYears (today b : Date) : Int :=
  max 0 ((civilDays today - civilDays b).fdiv 365)

/-- Normalization and derivation of one row of `prepare_df`, given the
column-presence flags and the object-dtype flags of the four free-text
columns. -/
def prepRow (today : Date) (p : RawPres) (oNome oArea oNivel oCargo : Bool)
    (rr : RawRow) : Row :=
  let sb : ℚ := if p.salario then (toNumericQ rr.salario).getD 0 else 0
  let im : ℚ := if p.impostos then (toNumericQ rr.impostos).getD 0 else 0
  let be : ℚ := if p.beneficios then (toNumericQ rr.beneficios).getD 0 else 0
  let vtv : ℚ := if p.vt then (toNumericQ rr.vt).getD 0 else 0
  let vrv : ℚ := if p.vr then (toNumericQ rr.vr).getD 0 else 0
  { nome := if p.nome then normText oNome rr.nome else none
    area := if p.area then normText oArea rr.area else none
    nivel := if p.nivel then normText oNivel rr.nivel else none
    cargo := if p.cargo then normText oCargo rr.cargo else none
    sexo := if p.sexo then some (sexMap ((rawToStr rr.sexo).trim.toUpper)) else none
    nascimento := if p.nascimento then parseDateCell rr.nascimento else none
    contratacao := if p.contratacao then parseDateCell rr.contratacao else none
    demissao := if p.demissao then parseDateCell rr.demissao else none
    salarioBase := sb
    impostos := im
    beneficios := be
    vt := vtv
    vr := vrv
    avaliacao := if p.avaliacao then toNumericQ rr.avaliacao else none
    idade := if p.nascimento then (parseDateCell rr.nascimento).map (ageYears today) else none
    tempoCasa := if p.contratacao then (parseDateCell rr.contratacao).map (tenureMonths today) else none
    status := if p.demissao then
                (if (parseDateCell rr.demissao).isSome then some "Desligado" else some "Ativo")
              else some "Ativo"
    custoTotal := sb + im + be + vtv + vrv }

/-- The table produced by a successful run of `prepare_df`. The five
currency columns are always synthesized, as are Status and the total
cost; Idade and Tempo de Casa exist iff their source date column does. -/
def prepOut (today : Date) (raw : RawTable) : DataTable :=
  { pres :=
      { nome := raw.pres.nome
        area := raw.pres.area
        nivel := raw.pres.nivel
        cargo := raw.pres.cargo
        sexo := raw.pres.sexo
        nascimento := raw.pres.nascimento
        contratacao := raw.pres.contratacao
        demissao := raw.pres.demissao
        salarioBase := true
        avaliacao := raw.pres.avaliacao
        idade := raw.pres.nascimento
        tempoCasa := raw.pres.contratacao
        status := true
        custoTotal := true }
    rows := raw.rows.map
      (prepRow today raw.pres
        (colIsObject (fun rr => rr.nome) raw.rows)
        (colIsObject (fun rr => rr.area) raw.rows)
        (colIsObject (fun rr => rr.nivel) raw.rows)
        (colIsObject (fun rr => rr.cargo) raw.rows)) }

/-- `prepare_df` of src/app.py. `today` models the
`pd.Timestamp(date.today())` read inside the function. The error branch
is `df["Sexo"].str.upper()` raising when the Sexo column is present but
not object-typed (pandas: the `.str` accessor needs string values). -/
def prepare_df (today : Date) (raw : RawTable) : Except String DataTable :=
  if raw.pres.sexo && !(colIsObject (fun rr => rr.sexo) raw.rows) then
    Except.error "Can only use .str accessor with string values"
  else
    Except.ok (prepOut today raw)

/-- KPI `k_headcount_ativo`: count of rows with Status "Ativo"; 0 when the
Status column is absent. -/
def k_headcount_ativo (df : DataTable) : Nat :=
  if df.pres.status then
    (df.rows.filter (fun r => decide (r.status = some "Ativo"))).length
  else 0

/-- KPI `k_desligados`: count of rows with Status "Desligado"; 0 when the
Status column is absent. -/
def k_desligados (df : DataTable) : Nat :=
  if df.pres.status then
    (df.rows.filter (fun r => decide (r.status = some "Desligado"))).length
  else 0

/-- KPI `k_folha`: sum of Salario Base over Ativo rows; 0 when either
column is absent. -/
def k_folha (df : DataTable) : ℚ :=
  if df.pres.salarioBase && df.pres.status then
    ((df.rows.filter (fun r => decide (r.status = some "Ativo"))).map
      (fun r => r.salarioBase)).sum
  else 0

/-- KPI `k_custo_total`: sum of Custo Total Mensal over Ativo rows; 0 when
either column is absent. -/
def k_custo_total (df : DataTable) : ℚ :=
  if df.pres.custoTotal && df.pres.status then
    ((df.rows.filter (fun r => decide (r.status = some "Ativo"))).map
      (fun r => r.custoTotal)).sum
  else 0

/-- KPI `k_idade_media`: mean of Idade over non-null values; 0 when the
column is absent or all-null. -/
def k_idade_media (df : DataTable) : ℚ :=
  let vs : List Int := df.rows.filterMap (fun r => r.idade)
  if df.pres.idade && !vs.isEmpty then
    ((vs.map (fun v => (v : ℚ))).sum) / (vs.length : ℚ)
  else 0

/-- KPI `k_avaliacao_media`: mean of the optional rating column over
non-null values; 0 when the column is absent or all-null. -/
def k_avaliacao_media (df : DataTable) : ℚ :=
  let vs : List ℚ := df.rows.filterMap (fun r => r.avaliacao)
  if df.pres.avaliacao && !vs.isEmpty then vs.sum / (vs.length : ℚ)
  else 0

/-- One token of the search pattern as Python `re` reads it: `.` is a
wildcard, any other character of the patterns the claims exercise is a
literal. (`df[...].str.contains(pat, case=False)` defaults to
`regex=True`, i.e. `re.search` with `re.IGNORECASE`.) -/
inductive RTok where
  | dot
  | lit (c : Char)
deriving DecidableEq

/-- Tokenize a search pattern for the regex fragment modelled here. -/
def rtokens (p : String) : List RTok :=
  p.toList.map (fun c => if c = '.' then RTok.dot else RTok.lit c)

/-- Case-insensitive match of one token against one character. -/
def rtokMatch : RTok → Char → Bool
  | .dot, _ => true
  | .lit c, d => c.toLower == d.toLower

/-- Match the whole token list at the start of the character list. -/
def matchHere : List RTok → List Char → Bool
  | [], _ => true
  | _ :: _, [] => false
  | t :: ts, c :: cs => rtokMatch t c && matchHere ts cs

/-- `re.search(pat, s, re.IGNORECASE) is not None` for patterns in the
modelled fragment: the pattern matches at some position of `s`. -/
def reSearchCI (pat s : String) : Bool :=
  (s.toList.tails).any (matchHere (rtokens pat))

/-- Modelled from the spec: case-insensitive check that `pat` starts the
given character list (the spec notion of substring occurrence, used to
compare with the code's regex-based matcher). -/
def startsWithCI : List Char → List Char → Bool
  | [], _ => true
  | _ :: _, [] => false
  | a :: as, b :: bs => (a == b) && startsWithCI as bs

/-- Modelled from the spec: "case-insensitive substring match on name" —
`pat` occurs literally (case-insensitively) somewhere inside `s`. -/
def substringCI (pat s : String) : Bool :=
  ((s.toList.map Char.toLower).tails).any
    (startsWithCI (pat.toList.map Char.toLower))

/-- The configured state of the sidebar filters (basic block). An empty
list / empty string / `none` is an unconfigured criterion. -/
structure FilterConfig where
  areaSel : List String := []
  nivelSel : List String := []
  cargoSel : List String := []
  sexoSel : List String := []
  statusSel : List String := []
  nomeBusca : String := ""
  faixaIdade : Option (Int × Int) := none
  faixaSal : Option (ℚ × ℚ) := none
  periodoContr : Option (Date × Date) := none
  periodoDemis : Option (Date × Date) := none
deriving DecidableEq

/-- `Series.isin(values)` on one cell: a null (or non-string) cell is in
no list of selected strings. -/
def isinOpt (v : Option String) (values : List String) : Bool :=
  match v with
  | some s => values.contains s
  | none => false

/-- `Series.str.contains(pat, case=False, na=False)` on one cell: a null
cell yields False, otherwise regex search. -/
def containsCI (pat : String) (v : Option String) : Bool :=
  match v with
  | some s => reSearchCI pat s
  | none => false

/-- Inclusive numeric range mask on a nullable integer cell; NaN compares
False on both bounds, so a null cell fails. -/
def inRangeInt (a b : Int) (v : Option Int) : Bool :=
  match v with
  | some x => decide (a ≤ x ∧ x ≤ b)
  | none => false

/-- Date-range mask `isna() | (lo <= d & d <= hi)`: a null date passes. -/
def datePass (rng : Date × Date) (v : Option Date) : Bool :=
  match v with
  | none => true
  | some d => dateLe rng.1 d && dateLe d rng.2

/-- One conditional filtering step `if cond: df = df[mask]`. -/
def condStep (df : DataTable) (c : Bool) (p : Row → Bool) : DataTable :=
  if c then { df with rows := df.rows.filter p } else df

/-- `apply_in` of src/app.py: membership filter, active only when the
selection is nonempty and the column is present. -/
def apply_in (df : DataTable) (getPres : ColPres → Bool)
    (get : Row → Option String) (values : List String) : DataTable :=
  condStep df (!values.isEmpty && getPres df.pres) (fun r => isinOpt (get r) values)

/-- Row mask of the name search (values destructured when configured). -/
def nomePred (cfg : FilterConfig) (r : Row) : Bool :=
  containsCI cfg.nomeBusca r.nome

/-- Row mask of the age range (bounds destructured when configured). -/
def idadePred (cfg : FilterConfig) (r : Row) : Bool :=
  match cfg.faixaIdade with
  | some fi => inRangeInt fi.1 fi.2 r.idade
  | none => true

/-- Row mask of the base-salary range. -/
def salPred (cfg : FilterConfig) (r : Row) : Bool :=
  match cfg.faixaSal with
  | some fs => decide (fs.1 ≤ r.salarioBase ∧ r.salarioBase ≤ fs.2)
  | none => true

/-- Row mask of the hiring-period filter (nulls pass). -/
def contrPred (cfg : FilterConfig) (r : Row) : Bool :=
  match cfg.periodoContr with
  | some rng => datePass rng r.contratacao
  | none => true

/-- Row mask of the termination-period filter (nulls pass). -/
def demisPred (cfg : FilterConfig) (r : Row) : Bool :=
  match cfg.periodoDemis with
  | some rng => datePass rng r.demissao
  | none => true

/-- The basic filter block of src/app.py (lines 261-291), applied in
source order: five `apply_in` membership filters, name search, age range,
salary range, hiring period, termination period. -/
def apply_filters (cfg : FilterConfig) (df : DataTable) : DataTable :=
  let d1 := apply_in df (fun p => p.area) (fun r => r.area) cfg.areaSel
  let d2 := apply_in d1 (fun p => p.nivel) (fun r => r.nivel) cfg.nivelSel
  let d3 := apply_in d2 (fun p => p.cargo) (fun r => r.cargo) cfg.cargoSel
  let d4 := apply_in d3 (fun p => p.sexo) (fun r => r.sexo) cfg.sexoSel
  let d5 := apply_in d4 (fun p => p.status) (fun r => r.status) cfg.statusSel
  let d6 := condStep d5 (!cfg.nomeBusca.isEmpty && d5.pres.nome) (nomePred cfg)
  let d7 := condStep d6 (cfg.faixaIdade.isSome && d6.pres.idade) (idadePred cfg)
  let d8 := condStep d7 (cfg.faixaSal.isSome && d7.pres.salarioBase) (salPred cfg)
  let d9 := condStep d8 (cfg.periodoContr.isSome && d8.pres.contratacao) (contrPred cfg)
  let d10 := condStep d9 (cfg.periodoDemis.isSome && d9.pres.demissao) (demisPred cfg)
  d10

/-- The ten filter criteria, as abstract names. -/
inductive FilterKind where
  | area
  | nivel
  | cargo
  | sexo
  | status
  | nome
  | idade
  | sal
  | contr
  | demis
deriving DecidableEq

/-- The effective row predicate of one filter criterion: a row passes if
the criterion is unconfigured, its column absent, or the mask holds. -/
def stepPred (cfg : FilterConfig) (p : ColPres) : FilterKind → Row → Bool
  | .area => fun r => !(!cfg.areaSel.isEmpty && p.area) || isinOpt r.area cfg.areaSel
  | .nivel => fun r => !(!cfg.nivelSel.isEmpty && p.nivel) || isinOpt r.nivel cfg.nivelSel
  | .cargo => fun r => !(!cfg.cargoSel.isEmpty && p.cargo) || isinOpt r.cargo cfg.cargoSel
  | .sexo => fun r => !(!cfg.sexoSel.isEmpty && p.sexo) || isinOpt r.sexo cfg.sexoSel
  | .status => fun r => !(!cfg.statusSel.isEmpty && p.status) || isinOpt r.status cfg.statusSel
  | .nome => fun r => !(!cfg.nomeBusca.isEmpty && p.nome) || nomePred cfg r
  | .idade => fun r => !(cfg.faixaIdade.isSome && p.idade) || idadePred cfg r
  | .sal => fun r => !(cfg.faixaSal.isSome && p.salarioBase) || salPred cfg r
  | .contr => fun r => !(cfg.periodoContr.isSome && p.contratacao) || contrPred cfg r
  | .demis => fun r => !(cfg.periodoDemis.isSome && p.demissao) || demisPred cfg r

/-- The order in which the source applies the ten criteria. -/
def codeOrder : List FilterKind :=
  [.area, .nivel, .cargo, .sexo, .status, .nome, .idade, .sal, .contr, .demis]

/-- Apply the criteria named by `order` one after the other. -/
def applyOrder (cfg : FilterConfig) (p : ColPres) (order : List FilterKind)
    (rows : List Row) : List Row :=
  order.foldl (fun rs k => rs.filter (stepPred cfg p k)) rows

lemma condStep_pres (df : DataTable) (c : Bool) (p : Row → Bool) :
    (condStep df c p).pres = df.pres := by
  unfold condStep
  split <;> rfl

lemma condStep_rows (df : DataTable) (c : Bool) (p : Row → Bool) :
    (condStep df c p).rows = df.rows.filter (fun r => !c || p r) := by
  unfold condStep
  cases c
  · simp [List.filter_true]
  · simp

lemma apply_filters_pres (cfg : FilterConfig) (df : DataTable) :
    (apply_filters cfg df).pres = df.pres := by
  unfold apply_filters apply_in
  simp only [condStep_pres]

lemma apply_filters_rows (cfg : FilterConfig) (df : DataTable) :
    (apply_filters cfg df).rows = applyOrder cfg df.pres codeOrder df.rows := by
  unfold apply_filters apply_in applyOrder codeOrder
  simp only [List.foldl_cons, List.foldl_nil, condStep_rows, condStep_pres, stepPred]

lemma applyOrder_eq_filter_all (cfg : FilterConfig) (p : ColPres)
    (l : List FilterKind) (rows : List Row) :
    applyOrder cfg p l rows =
      rows.filter (fun r => l.all (fun k => stepPred cfg p k r)) := by
  induction l generalizing rows with
  | nil => simp [applyOrder, List.filter_true]
  | cons k ks ih =>
    have h1 : applyOrder cfg p (k :: ks) rows =
        applyOrder cfg p ks (rows.filter (stepPred cfg p k)) := rfl
    rw [h1, ih, List.filter_filter]
    refine List.filter_congr ?_
    intro a _
    simp [List.all_cons, Bool.and_comm]

lemma perm_all_eq {l₁ l₂ : List FilterKind} (h : List.Perm l₁ l₂)
    (f : FilterKind → Bool) : l₁.all f = l₂.all f := by
  induction h with
  | nil => rfl
  | cons x _ ih => simp [List.all_cons, ih]
  | swap x y l => cases hx : f x <;> cases hy : f y <;> simp [List.all_cons, hx, hy]
  | trans _ _ ih₁ ih₂ => exact ih₁.trans ih₂

lemma mem_of_mem_apply_filters {cfg : FilterConfig} {t : DataTable} {r : Row}
    (h : r ∈ (apply_filters cfg t).rows) : r ∈ t.rows := by
  rw [apply_filters_rows, applyOrder_eq_filter_all] at h
  exact List.mem_of_mem_filter h

lemma prepare_df_ok {today : Date} {raw : RawTable} {t : DataTable}
    (h : prepare_df today raw = Except.ok t) : t = prepOut today raw := by
  unfold prepare_df at h
  split at h
  · exact Except.noConfusion h
  · injection h with h'
    exact h'.symm

lemma zip_map_snd {α β : Type} (f : α → β) :
    ∀ (l : List α) (p : α × β), p ∈ l.zip (l.map f) → p.2 = f p.1 := by
  intro l
  induction l with
  | nil => intro p hp; cases hp
  | cons a t ih =>
    intro p hp
    rw [List.map_cons, List.zip_cons_cons] at hp
    rcases List.mem_cons.mp hp with h | h
    · subst h; rfl
    · exact ih p h

lemma mem_prepOut {today : Date} {raw : RawTable} {r : Row}
    (h : r ∈ (prepOut today raw).rows) :
    ∃ rr, r = prepRow today raw.pres
      (colIsObject (fun x => x.nome) raw.rows)
      (colIsObject (fun x => x.area) raw.rows)
      (colIsObject (fun x => x.nivel) raw.rows)
      (colIsObject (fun x => x.cargo) raw.rows) rr := by
  unfold prepOut at h
  simp only [List.mem_map] at h
  obtain ⟨rr, _, hr⟩ := h
  exact ⟨rr, hr.symm⟩

lemma prepRow_status (today : Date) (p : RawPres) (o1 o2 o3 o4 : Bool)
    (rr : RawRow) :
    (prepRow today p o1 o2 o3 o4 rr).status = some "Ativo" ∨
      (prepRow today p o1 o2 o3 o4 rr).status = some "Desligado" := by
  simp only [prepRow]
  split
  · split
    · exact Or.inr rfl
    · exact Or.inl rfl
  · exact Or.inl rfl

lemma count_status_split (rows : List Row)
    (h : ∀ r ∈ rows, r.status = some "Ativo" ∨ r.status = some "Desligado") :
    (rows.filter (fun r => decide (r.status = some "Ativo"))).length +
      (rows.filter (fun r => decide (r.status = some "Desligado"))).length =
      rows.length := by
  induction rows with
  | nil => rfl
  | cons a t ih =>
    have ha := h a (List.mem_cons_self a t)
    have ht : ∀ r ∈ t, r.status = some "Ativo" ∨ r.status = some "Desligado" :=
      fun r hr => h r (List.mem_cons_of_mem a hr)
    rcases ha with ha | ha <;>
      simp [List.filter_cons, ha, List.length_cons, ← ih ht] <;> omega

/-- A fixed clock date used by the concrete instances below. -/
def dW : Date := { year := 2024, month := 1, day := 1 }

/-- Input with a negative base-salary cell. -/
def rawC1neg : RawTable :=
  { pres := { salario := true }, rows := [ { salario := RawCell.num (-5) } ] }

/-- C1 counterexample: the claim says every currency field is non-negative
after normalization, but `pd.to_numeric(...).fillna(0.0)` never clamps: a
base-salary cell holding -5 normalizes to -5, which is negative. -/
theorem currency_negative_passes_normalization :
    ((prepare_df dW rawC1neg).toOption.map
      (fun t => t.rows.map (fun r => r.salarioBase))) = some [(-5 : ℚ)] ∧
    ((-5 : ℚ) < 0) :=
  ⟨rfl, by decide⟩

/-- C1 (amended): after normalization each of the five currency fields
holds a numeric value, never null/NaN: a column absent from the input is
synthesized as 0.0 for every row, an unparseable cell becomes 0.0, and a
parseable cell keeps its parsed value (which may be negative). -/
theorem currency_fields_numeric_defaulted (today : Date) (raw : RawTable)
    (t : DataTable) (h : prepare_df today raw = Except.ok t) :
    t.rows.length = raw.rows.length ∧
    ∀ p ∈ raw.rows.zip t.rows,
      (p.2.salarioBase = if raw.pres.salario then (toNumericQ p.1.salario).getD 0 else 0) ∧
      (p.2.impostos = if raw.pres.impostos then (toNumericQ p.1.impostos).getD 0 else 0) ∧
      (p.2.beneficios = if raw.pres.beneficios then (toNumericQ p.1.beneficios).getD 0 else 0) ∧
      (p.2.vt = if raw.pres.vt then (toNumericQ p.1.vt).getD 0 else 0) ∧
      (p.2.vr = if raw.pres.vr then (toNumericQ p.1.vr).getD 0 else 0) := by
  obtain rfl := prepare_df_ok h
  constructor
  · simp [prepOut]
  · intro p hp
    have h2 : p.2 = prepRow today raw.pres
        (colIsObject (fun x => x.nome) raw.rows)
        (colIsObject (fun x => x.area) raw.rows)
        (colIsObject (fun x => x.nivel) raw.rows)
        (colIsObject (fun x => x.cargo) raw.rows) p.1 :=
      zip_map_snd _ raw.rows p (by simpa [prepOut] using hp)
    rw [h2]
    exact ⟨rfl, rfl, rfl, rfl, rfl⟩

/-- Input whose base-salary cell is unparseable text and whose other
currency columns are absent. -/
def rawC1w : RawTable :=
  { pres := { salario := true }, rows := [ { salario := RawCell.str "abc" } ] }

/-- The table rawC1w normalizes to. -/
def tC1w : DataTable := (prepare_df dW rawC1w).toOption.getD {}

/-- The first raw row of rawC1w paired with its normalized row. -/
def pC1w : RawRow × Row := (rawC1w.rows.headD {}, tC1w.rows.headD {})

theorem currency_fields_numeric_defaulted_witness :
    (pC1w.2.salarioBase = if rawC1w.pres.salario then (toNumericQ pC1w.1.salario).getD 0 else 0) ∧
    (pC1w.2.impostos = if rawC1w.pres.impostos then (toNumericQ pC1w.1.impostos).getD 0 else 0) ∧
    (pC1w.2.beneficios = if rawC1w.pres.beneficios then (toNumericQ pC1w.1.beneficios).getD 0 else 0) ∧
    (pC1w.2.vt = if rawC1w.pres.vt then (toNumericQ pC1w.1.vt).getD 0 else 0) ∧
    (pC1w.2.vr = if rawC1w.pres.vr then (toNumericQ pC1w.1.vr).getD 0 else 0) :=
  (currency_fields_numeric_defaulted dW rawC1w tC1w rfl).2 pC1w
    (List.mem_cons_self _ _)

/-- C2: for every row of the derived table, Custo Total Mensal equals the
exact sum of the five currency fields of that row, after every run of
`prepare_df`. -/
theorem total_cost_is_sum_of_currency (today : Date) (raw : RawTable)
    (t : DataTable) (h : prepare_df today raw = Except.ok t) :
    ∀ r ∈ t.rows,
      r.custoTotal = r.salarioBase + r.impostos + r.beneficios + r.vt + r.vr := by
  obtain rfl := prepare_df_ok h
  intro r hr
  obtain ⟨rr, rfl⟩ := mem_prepOut hr
  rfl

/-- A two-column input feeding the C2 witness. -/
def rawC2w : RawTable :=
  { pres := { salario := true, impostos := true },
    rows := [ { salario := RawCell.num 1000, impostos := RawCell.num 200 } ] }

/-- The table rawC2w normalizes to. -/
def tC2w : DataTable := (prepare_df dW rawC2w).toOption.getD {}

/-- The first normalized row of tC2w. -/
def rC2w : Row := tC2w.rows.headD {}

theorem total_cost_is_sum_of_currency_witness :
    rC2w.custoTotal = rC2w.salarioBase + rC2w.impostos + rC2w.beneficios + rC2w.vt + rC2w.vr :=
  total_cost_is_sum_of_currency dW rawC2w tC2w rfl rC2w (List.mem_cons_self _ _)

/-- C3: filters compose by intersection, so applying the configured
criteria in any permutation of the source order yields exactly the row
set the filter block produces. -/
theorem filters_order_independent (cfg : FilterConfig) (t : DataTable)
    (order : List FilterKind) (h : List.Perm order codeOrder) :
    applyOrder cfg t.pres order t.rows = (apply_filters cfg t).rows := by
  rw [apply_filters_rows, applyOrder_eq_filter_all, applyOrder_eq_filter_all]
  refine List.filter_congr ?_
  intro a _
  exact perm_all_eq h _

/-- A configuration with two active filters, for the C3 witness. -/
def cfgC3 : FilterConfig := { areaSel := ["Vendas"], statusSel := ["Ativo"] }

/-- A two-row table, for the C3 witness. -/
def tC3 : DataTable :=
  { pres := { area := true, status := true },
    rows := [ { area := some "Vendas", status := some "Ativo" },
              { area := some "TI", status := some "Ativo" } ] }

/-- A genuine reordering of the source filter order. -/
def orderC3 : List FilterKind :=
  [.status, .area, .cargo, .nivel, .sexo, .nome, .idade, .sal, .contr, .demis]

theorem filters_order_independent_witness :
    applyOrder cfgC3 tC3.pres orderC3 tC3.rows = (apply_filters cfgC3 tC3).rows :=
  filters_order_independent cfgC3 tC3 orderC3 (by decide)

/-- Area filter active, but the table it is applied to has no area
column. -/
def cfgC4 : FilterConfig := { areaSel := ["Vendas"] }

/-- A one-row table without an area column. -/
def tC4 : DataTable := { pres := {}, rows := [ ({} : Row) ] }

/-- C4 counterexample: the claim says a row whose target column is absent
is always excluded by an active categorical filter, but `apply_in` skips
a filter whose column is missing (`col in df_.columns` fails), so the row
survives. -/
theorem absent_column_filter_does_not_exclude :
    (apply_filters cfgC4 tC4).rows = [ ({} : Row) ] ∧ tC4.pres.area = false :=
  ⟨rfl, rfl⟩

/-- C4 (amended): a null value in the date field of an active date-range
filter always passes that filter; a null value in the field of an active
categorical, substring or numeric-range filter is excluded by that filter
exactly when the filter is active and its column present; and a filter
whose target column is absent is skipped (excludes nothing). -/
theorem null_and_absent_column_filter_semantics (cfg : FilterConfig)
    (t : DataTable) (r : Row) :
    (stepPred cfg t.pres FilterKind.contr { r with contratacao := none } = true) ∧
    (stepPred cfg t.pres FilterKind.demis { r with demissao := none } = true) ∧
    (stepPred cfg t.pres FilterKind.area { r with area := none } =
      (cfg.areaSel.isEmpty || !t.pres.area)) ∧
    (stepPred cfg t.pres FilterKind.nivel { r with nivel := none } =
      (cfg.nivelSel.isEmpty || !t.pres.nivel)) ∧
    (stepPred cfg t.pres FilterKind.cargo { r with cargo := none } =
      (cfg.cargoSel.isEmpty || !t.pres.cargo)) ∧
    (stepPred cfg t.pres FilterKind.sexo { r with sexo := none } =
      (cfg.sexoSel.isEmpty || !t.pres.sexo)) ∧
    (stepPred cfg t.pres FilterKind.status { r with status := none } =
      (cfg.statusSel.isEmpty || !t.pres.status)) ∧
    (stepPred cfg t.pres FilterKind.nome { r with nome := none } =
      (cfg.nomeBusca.isEmpty || !t.pres.nome)) ∧
    (stepPred cfg t.pres FilterKind.idade { r with idade := none } =
      (!cfg.faixaIdade.isSome || !t.pres.idade)) ∧
    (stepPred cfg { t.pres with area := false } FilterKind.area r = true) ∧
    (stepPred cfg { t.pres with nivel := false } FilterKind.nivel r = true) ∧
    (stepPred cfg { t.pres with cargo := false } FilterKind.cargo r = true) ∧
    (stepPred cfg { t.pres with sexo := false } FilterKind.sexo r = true) ∧
    (stepPred cfg { t.pres with status := false } FilterKind.status r = true) ∧
    (stepPred cfg { t.pres with nome := false } FilterKind.nome r = true) ∧
    (stepPred cfg { t.pres with idade := false } FilterKind.idade r = true) ∧
    (stepPred cfg { t.pres with salarioBase := false } FilterKind.sal r = true) := by
  refine ⟨?_, ?_, ?_, ?_, ?_, ?_, ?_, ?_, ?_, ?_, ?_, ?_, ?_, ?_, ?_, ?_, ?_⟩
  · rcases hc : cfg.periodoContr with _ | rng <;>
      simp [stepPred, contrPred, datePass, hc]
  · rcases hc : cfg.periodoDemis with _ | rng <;>
      simp [stepPred, demisPred, datePass, hc]
  · cases hA : cfg.areaSel.isEmpty <;> cases hP : t.pres.area <;>
      simp [stepPred, isinOpt, hA, hP]
  · cases hA : cfg.nivelSel.isEmpty <;> cases hP : t.pres.nivel <;>
      simp [stepPred, isinOpt, hA, hP]
  · cases hA : cfg.cargoSel.isEmpty <;> cases hP : t.pres.cargo <;>
      simp [stepPred, isinOpt, hA, hP]
  · cases hA : cfg.sexoSel.isEmpty <;> cases hP : t.pres.sexo <;>
      simp [stepPred, isinOpt, hA, hP]
  · cases hA : cfg.statusSel.isEmpty <;> cases hP : t.pres.status <;>
      simp [stepPred, isinOpt, hA, hP]
  · cases hA : cfg.nomeBusca.isEmpty <;> cases hP : t.pres.nome <;>
      simp [stepPred, nomePred, containsCI, hA, hP]
  · rcases hf : cfg.faixaIdade with _ | fi <;> cases hP : t.pres.idade <;>
      simp [stepPred, idadePred, inRangeInt, hf, hP]
  · simp [stepPred]
  · simp [stepPred]
  · simp [stepPred]
  · simp [stepPred]
  · simp [stepPred]
  · simp [stepPred]
  · simp [stepPred]
  · simp [stepPred]

/-- The reference date of the C5 scenario. -/
def refC5 : Date := { year := 2021, month := 3, day := 1 }

/-- A one-row input hired on 2020-01-15. -/
def rawC5 : RawTable :=
  { pres := { contratacao := true },
    rows := [ { contratacao := RawCell.date { year := 2020, month := 1, day := 15 } } ] }

/-- C5 counterexample: at hire date 2020-01-15 and reference date
2021-03-01 the code's formula (and the claim's own formula) gives
(2021-2020)*12 + (3-1) = 14, not the claimed 13. -/
theorem tenure_scenario_not_thirteen :
    ((prepare_df refC5 rawC5).toOption.map
      (fun t => t.rows.map (fun r => r.tempoCasa))) = some [some 14] ∧
    ((14 : Int) ≠ 13) :=
  ⟨rfl, by decide⟩

/-- C5 (amended): a hire date of 2020-01-15 with reference date
2021-03-01 yields tenure of 14 months under the formula
(reference.year - hire.year)*12 + (reference.month - hire.month)
clamped at 0, both as a formula and through a full `prepare_df` run. -/
theorem tenure_scenario_fourteen :
    tenureMonths refC5 { year := 2020, month := 1, day := 15 } = 14 ∧
    ((prepare_df refC5 rawC5).toOption.map
      (fun t => t.rows.map (fun r => r.tempoCasa))) = some [some 14] :=
  ⟨rfl, rfl⟩

/-- C6: every KPI function evaluates to the defined fallback 0 on an
empty table and on a table missing the column(s) it reads; each returns a
total numeric value by construction (`Nat` / `ℚ`), never null/NaN. -/
theorem kpi_zero_fallback (df : DataTable) :
    (df.rows = [] →
      k_headcount_ativo df = 0 ∧ k_desligados df = 0 ∧ k_folha df = 0 ∧
      k_custo_total df = 0 ∧ k_idade_media df = 0 ∧ k_avaliacao_media df = 0) ∧
    (df.pres.status = false →
      k_headcount_ativo df = 0 ∧ k_desligados df = 0 ∧ k_folha df = 0 ∧
      k_custo_total df = 0) ∧
    (df.pres.salarioBase = false → k_folha df = 0) ∧
    (df.pres.custoTotal = false → k_custo_total df = 0) ∧
    (df.pres.idade = false → k_idade_media df = 0) ∧
    (df.pres.avaliacao = false → k_avaliacao_media df = 0) := by
  refine ⟨?_, ?_, ?_, ?_, ?_, ?_⟩
  · intro h
    simp [k_headcount_ativo, k_desligados, k_folha, k_custo_total,
      k_idade_media, k_avaliacao_media, h]
  · intro h
    simp [k_headcount_ativo, k_desligados, k_folha, k_custo_total, h]
  · intro h; simp [k_folha, h]
  · intro h; simp [k_custo_total, h]
  · intro h; simp [k_idade_media, h]
  · intro h; simp [k_avaliacao_media, h]

/-- The empty table with no columns. -/
def tC6 : DataTable := {}

theorem kpi_zero_fallback_witness :
    k_headcount_ativo tC6 = 0 ∧ k_desligados tC6 = 0 ∧ k_folha tC6 = 0 ∧
    k_custo_total tC6 = 0 ∧ k_idade_media tC6 = 0 ∧ k_avaliacao_media tC6 = 0 :=
  (kpi_zero_fallback tC6).1 rfl

/-- An input whose Sexo column is present but numeric (not object
dtype). -/
def rawC7bad : RawTable :=
  { pres := { sexo := true }, rows := [ { sexo := RawCell.num 1 } ] }

/-- C7 counterexample: the Field Normalizer is claimed never to raise,
but on a table whose Sexo column is numeric, `df["Sexo"].str.upper()`
raises (pandas `.str` accessor needs string values), so `prepare_df`
produces no table. -/
theorem normalizer_raises_on_numeric_sexo :
    (prepare_df dW rawC7bad).toOption = none := rfl

/-- C7 (amended): on every input whose Sexo column, when present, is
object-typed (holds at least one text cell), `prepare_df` raises nothing
and returns a table of the same length, degrading cell-by-cell: a date
cell that fails to parse becomes null, and a currency cell that fails to
convert (or sits in an absent column) becomes 0. The stage is a pure
function of its input (no I/O, no global state) by construction. -/
theorem normalizer_total_on_text_sexo (today : Date) (raw : RawTable)
    (h : raw.pres.sexo = true → colIsObject (fun rr => rr.sexo) raw.rows = true) :
    ∃ t, prepare_df today raw = Except.ok t ∧
      t.rows.length = raw.rows.length ∧
      ∀ p ∈ raw.rows.zip t.rows,
        (raw.pres.nascimento = true → p.2.nascimento = parseDateCell p.1.nascimento) ∧
        (raw.pres.contratacao = true → p.2.contratacao = parseDateCell p.1.contratacao) ∧
        (raw.pres.demissao = true → p.2.demissao = parseDateCell p.1.demissao) ∧
        (p.2.salarioBase = if raw.pres.salario then (toNumericQ p.1.salario).getD 0 else 0) := by
  refine ⟨prepOut today raw, ?_, ?_, ?_⟩
  · unfold prepare_df
    have hc : (raw.pres.sexo && !(colIsObject (fun rr => rr.sexo) raw.rows)) = false := by
      cases hs : raw.pres.sexo
      · rfl
      · simp [h hs]
    simp [hc]
  · simp [prepOut]
  · intro p hp
    have h2 : p.2 = prepRow today raw.pres
        (colIsObject (fun x => x.nome) raw.rows)
        (colIsObject (fun x => x.area) raw.rows)
        (colIsObject (fun x => x.nivel) raw.rows)
        (colIsObject (fun x => x.cargo) raw.rows) p.1 :=
      zip_map_snd _ raw.rows p (by simpa [prepOut] using hp)
    rw [h2]
    refine ⟨?_, ?_, ?_, rfl⟩
    · intro hn; simp [prepRow, hn]
    · intro hn; simp [prepRow, hn]
    · intro hn; simp [prepRow, hn]

/-- An input with a text Sexo cell, an unparseable hire-date cell and an
unparseable salary cell. -/
def rawC7w : RawTable :=
  { pres := { sexo := true, contratacao := true, salario := true },
    rows := [ { sexo := RawCell.str "feminino",
                contratacao := RawCell.str "not a date",
                salario := RawCell.str "xyz" } ] }

theorem normalizer_total_on_text_sexo_witness :
    ∃ t, prepare_df dW rawC7w = Except.ok t ∧
      t.rows.length = rawC7w.rows.length ∧
      ∀ p ∈ rawC7w.rows.zip t.rows,
        (rawC7w.pres.nascimento = true → p.2.nascimento = parseDateCell p.1.nascimento) ∧
        (rawC7w.pres.contratacao = true → p.2.contratacao = parseDateCell p.1.contratacao) ∧
        (rawC7w.pres.demissao = true → p.2.demissao = parseDateCell p.1.demissao) ∧
        (p.2.salarioBase = if rawC7w.pres.salario then (toNumericQ p.1.salario).getD 0 else 0) :=
  normalizer_total_on_text_sexo dW rawC7w (fun _ => rfl)

/-- A name search for the literal text ".". -/
def cfgC8 : FilterConfig := { nomeBusca := "." }

/-- A one-row table with name "Ana" (which contains no "." anywhere). -/
def tC8 : DataTable :=
  { pres := { nome := true }, rows := [ { nome := some "Ana" } ] }

/-- C8 (code-bug evidence): the name filter is specified as a
case-insensitive substring match, but `str.contains` defaults to
`regex=True`, so the search text is a regular expression: searching "."
keeps the row named "Ana" although "." is not a substring of "Ana". -/
theorem name_search_uses_regex_not_substring :
    (apply_filters cfgC8 tC8).rows = tC8.rows ∧
    substringCI "." "Ana" = false ∧
    reSearchCI "." "Ana" = true :=
  ⟨rfl, by decide, by decide⟩

/-- A one-row input hired on 2020-01-15, for the clock-dependence runs. -/
def rawC9 : RawTable :=
  { pres := { contratacao := true },
    rows := [ { contratacao := RawCell.date { year := 2020, month := 1, day := 15 } } ] }

/-- First clock date. -/
def dayA : Date := { year := 2021, month := 3, day := 1 }

/-- Second clock date, one month later. -/
def dayB : Date := { year := 2021, month := 4, day := 1 }

/-- C9 counterexample: `prepare_df` reads `pd.Timestamp(date.today())`
inside the function — there is no externally supplied reference-date
parameter — so two runs on the same input at different clock dates
produce different derived tables (tenure 14 vs 15 here). -/
theorem derivation_depends_on_clock :
    ((prepare_df dayA rawC9).toOption.map
      (fun t => t.rows.map (fun r => r.tempoCasa))) = some [some 14] ∧
    ((prepare_df dayB rawC9).toOption.map
      (fun t => t.rows.map (fun r => r.tempoCasa))) = some [some 15] ∧
    (some [some (14 : Int)] ≠ some [some (15 : Int)]) :=
  ⟨rfl, rfl, by decide⟩

/-- C9 (amended): the derived fields are computed relative to the
system-clock date captured at run time, not an externally supplied
parameter, so age and tenure vary with the clock; the raise behavior,
the Status column and Custo Total Mensal are clock-independent, and for
a fixed clock date the stage is a deterministic function of the input. -/
theorem status_and_cost_clock_independent (raw : RawTable) (t1 t2 : Date) :
    Except.map (fun t => t.rows.map (fun r => (r.status, r.custoTotal)))
      (prepare_df t1 raw) =
    Except.map (fun t => t.rows.map (fun r => (r.status, r.custoTotal)))
      (prepare_df t2 raw) := by
  unfold prepare_df
  cases hc : (raw.pres.sexo && !(colIsObject (fun rr => rr.sexo) raw.rows))
  · simp only [hc, Bool.false_eq_true, if_false, Except.map, prepOut, List.map_map]
    rfl
  · simp only [hc, if_true, Except.map]

/-- C10: after `prepare_df` every Status value is exactly "Ativo" or
"Desligado", so the active-headcount KPI plus the terminated-count KPI
equals the number of rows, both on the full table and on every filtered
view of it. -/
theorem status_binary_and_counts_add_up (today : Date) (raw : RawTable)
    (t : DataTable) (cfg : FilterConfig)
    (h : prepare_df today raw = Except.ok t) :
    (∀ r ∈ t.rows, r.status = some "Ativo" ∨ r.status = some "Desligado") ∧
    k_headcount_ativo t + k_desligados t = t.rows.length ∧
    k_headcount_ativo (apply_filters cfg t) + k_desligados (apply_filters cfg t) =
      (apply_filters cfg t).rows.length := by
  obtain rfl := prepare_df_ok h
  have hstat : ∀ r ∈ (prepOut today raw).rows,
      r.status = some "Ativo" ∨ r.status = some "Desligado" := by
    intro r hr
    obtain ⟨rr, rfl⟩ := mem_prepOut hr
    exact prepRow_status _ _ _ _ _ _ _
  have hpres : (prepOut today raw).pres.status = true := rfl
  have hpres2 : (apply_filters cfg (prepOut today raw)).pres.status = true := by
    rw [apply_filters_pres]
    exact hpres
  refine ⟨hstat, ?_, ?_⟩
  · simp only [k_headcount_ativo, k_desligados, hpres, if_true]
    exact count_status_split _ hstat
  · simp only [k_headcount_ativo, k_desligados, hpres2, if_true]
    refine count_status_split _ ?_
    intro r hr
    exact hstat r (mem_of_mem_apply_filters hr)

/-- A three-row input, one row with a termination date. -/
def rawC10 : RawTable :=
  { pres := { demissao := true },
    rows := [ ({} : RawRow), ({} : RawRow),
              { demissao := RawCell.date { year := 2023, month := 5, day := 2 } } ] }

/-- The table rawC10 normalizes to. -/
def tC10 : DataTable := (prepare_df dW rawC10).toOption.getD {}

/-- A status filter keeping only Ativo rows. -/
def cfgC10 : FilterConfig := { statusSel := ["Ativo"] }

theorem status_binary_and_counts_add_up_witness :
    k_headcount_ativo tC10 + k_desligados tC10 = tC10.rows.length ∧
    k_headcount_ativo (apply_filters cfgC10 tC10) + k_desligados (apply_filters cfgC10 tC10) =
      (apply_filters cfgC10 tC10).rows.length :=
  (status_binary_and_counts_add_up dW rawC10 tC10 cfgC10 rfl).2

end HRDash
